import Mathlib

/-!
# Verification of `lora-to-csv.py` (madpsy/lora-aprs-csv)

Shallow embedding of the message-handling pipeline of `src/lora-to-csv.py`:
the `MQTTToCSV.on_message` callback (lines 70-125), which parses a JSON
payload, extracts the transmitter callsign from the MQTT topic, injects the
two callsign fields, lazily establishes the CSV header schema from the first
successfully decoded message, and writes each row to both the stdout CSV
writer and the file CSV writer, flushing both.

Python values decoded from JSON are modelled by the inductive type `Json`
(numbers are modelled as integers; no claim depends on float formatting).
A Python `dict` is modelled as an association list built by successive
key assignment (`dictSet`), which preserves Python's insertion-order
semantics: assigning to an existing key replaces its value in place,
assigning to a fresh key appends it.  `json.loads` is modelled by its
outcome, `Except String Json`: `.error e` is a `json.JSONDecodeError`
carrying message `e`, `.ok j` is the decoded value.
-/

set_option autoImplicit false

/-- A decoded JSON value as produced by Python's `json.loads`. -/
inductive Json where
  | null
  | bool (b : Bool)
  | num (n : Int)
  | str (s : String)
  | arr (elems : List Json)
  | obj (fields : List (String × Json))

namespace Json

/-- `isinstance(value, (list, dict))` from line 113 of the source. -/
def isListOrDict : Json → Bool
  | .arr _ => true
  | .obj _ => true
  | _ => false

/-- Whether the decoded value is a Python `dict` (a JSON object). -/
def isObj : Json → Bool
  | .obj _ => true
  | _ => false

/-- JSON string escaping as performed by Python's `json.dumps` for the
escapes relevant here (quote, backslash, and common control characters). -/
def escapeChar (c : Char) : String :=
  if c = '"' then "\\\""
  else if c = '\\' then "\\\\"
  else if c = '\n' then "\\n"
  else if c = '\r' then "\\r"
  else if c = '\t' then "\\t"
  else String.singleton c

/-- Escape every character of a string for JSON output. -/
def escape (s : String) : String :=
  String.join (s.toList.map escapeChar)

mutual

/-- `json.dumps(value)` with its default separators `", "` and `": "`,
as called on line 114 of the source. -/
def dumps : Json → String
  | .null => "null"
  | .bool true => "true"
  | .bool false => "false"
  | .num n => toString n
  | .str s => "\"" ++ escape s ++ "\""
  | .arr es => "[" ++ dumpsList es ++ "]"
  | .obj fs => "\x7b" ++ dumpsObj fs ++ "\x7d"

/-- Comma-separated serialization of array elements. -/
def dumpsList : List Json → String
  | [] => ""
  | [e] => dumps e
  | e :: es => dumps e ++ ", " ++ dumpsList es

/-- Comma-separated serialization of object entries. -/
def dumpsObj : List (String × Json) → String
  | [] => ""
  | [(k, v)] => "\"" ++ escape k ++ "\": " ++ dumps v
  | (k, v) :: fs => "\"" ++ escape k ++ "\": " ++ dumps v ++ ", " ++ dumpsObj fs

end

end Json

/-! ## Python `dict` operations on association lists -/

/-- `d[k] = v` on a Python dict: replace the value at an existing key in
place, otherwise append the new key at the end (insertion order). -/
def dictSet (d : List (String × Json)) (k : String) (v : Json) :
    List (String × Json) :=
  if d.any (fun p => p.1 = k) then
    d.map (fun p => if p.1 = k then (k, v) else p)
  else
    d ++ [(k, v)]

/-- `d.get(k, default)` on a Python dict. -/
def dictGet (d : List (String × Json)) (k : String) (default : Json) : Json :=
  match d.find? (fun p => p.1 = k) with
  | some p => p.2
  | none => default

/-- The dict built by `json.loads` from a sequence of object entries:
successive assignment, so a duplicated key keeps its first position and
its last value. -/
def dictOfList (fs : List (String × Json)) : List (String × Json) :=
  fs.foldl (fun d p => dictSet d p.1 p.2) []

/-- The iteration order of a dict's keys (`data.keys()`). -/
def dictKeys (d : List (String × Json)) : List String :=
  d.map Prod.fst

/-! ## The `MQTTToCSV` state and the `on_message` callback -/

/-- One CSV output destination (`csv.writer` over a stream): the sequence of
records passed to `writerow`, and the prefix of them already flushed to the
underlying medium. -/
structure SinkState where
  written : List (List Json)
  flushed : List (List Json)

/-- The mutable state of an `MQTTToCSV` instance that `on_message` touches:
the header flag and frozen remaining keys (lines 38 and 95), the two CSV
sinks, and the lines printed to stderr. -/
structure CSVState where
  headers_written : Bool
  remaining_keys : List String
  console : SinkState
  file : SinkState
  stderr : List String

/-- The state right after `MQTTToCSV.__init__`: headers not yet written,
the output file truncated, nothing printed. -/
def initState : CSVState :=
  { headers_written := false
    remaining_keys := []
    console := { written := [], flushed := [] }
    file := { written := [], flushed := [] }
    stderr := [] }

/-- The fixed header columns of line 93. -/
def fixedHeaders : List String := ["timestamp", "rx_callsign", "tx_callsign"]

/-- Split a character list at every occurrence of `sep`, keeping empty
pieces — the semantics of Python's `str.split(sep)` with an explicit
separator (no run merging; the empty string yields `[""]`). -/
def splitChars (sep : Char) : List Char → List (List Char)
  | [] => [[]]
  | c :: cs =>
      match splitChars sep cs with
      | [] => if c = sep then [[], []] else [[c]]
      | p :: ps => if c = sep then [] :: p :: ps else (c :: p) :: ps

/-- Python's `topic.split('/')` from line 76. -/
def pySplitSlash (s : String) : List String :=
  (splitChars '/' s.toList).map List.asString

/-- Lines 76-82: split the topic on `/`; with at least 4 segments the
tx callsign is segment index 2, otherwise it is the empty string. -/
def txOfTopic (topic : String) : String :=
  let topic_parts := pySplitSlash topic
  if topic_parts.length ≥ 4 then topic_parts.getD 2 "" else ""

/-- The stderr warning of line 82, emitted only for short topics. -/
def topicWarning (topic : String) : List String :=
  if (pySplitSlash topic).length ≥ 4 then []
  else ["Unexpected topic format: " ++ topic]

/-- Lines 85-88: overwrite `tx_callsign` with the topic-derived value and
`rx_callsign` with the configured callsign. -/
def injectCallsigns (data : List (String × Json)) (tx rx : String) :
    List (String × Json) :=
  dictSet (dictSet data "tx_callsign" (.str tx)) "rx_callsign" (.str rx)

/-- Line 95: the record's keys, in iteration order, excluding the three
fixed header columns. -/
def remainingOf (data : List (String × Json)) : List String :=
  (dictKeys data).filter (fun k => ¬ fixedHeaders.contains k)

/-- The header record written on lines 99-100: the three fixed columns
followed by the remaining keys, each cell a Python `str`. -/
def headerRow (rem : List String) : List Json :=
  (fixedHeaders ++ rem).map Json.str

/-- Lines 111-115: fetch one remaining-key cell, defaulting to the empty
string, and re-serialize list/dict values to their JSON text. -/
def cellFor (data : List (String × Json)) (k : String) : Json :=
  let value := dictGet data k (.str "")
  if value.isListOrDict then .str value.dumps else value

/-- Lines 104-115: the data row in header order — the three fixed columns
via `data.get`, then one `cellFor` cell per frozen remaining key. -/
def rowFor (rem : List String) (data : List (String × Json)) : List Json :=
  [dictGet data "timestamp" (.str ""),
   dictGet data "rx_callsign" (.str ""),
   dictGet data "tx_callsign" (.str "")] ++ rem.map (cellFor data)

/-- `writer.writerow(record)`: append one record to a sink's stream. -/
def SinkState.writeRow (s : SinkState) (record : List Json) : SinkState :=
  { s with written := s.written ++ [record] }

/-- `stream.flush()`: everything written becomes visible on the medium. -/
def SinkState.flush (s : SinkState) : SinkState :=
  { s with flushed := s.written }

/-- `MQTTToCSV.on_message` (lines 70-125).  `loads` is the outcome of
`json.loads` on the UTF-8 payload; `callsign` is `self.callsign`.

* A `json.JSONDecodeError` (`.error`) is caught on line 122: one stderr
  line, nothing else changes.
* A decoded value that is not a dict makes the item assignment on line 85
  raise `TypeError`, caught by the generic handler on line 124 — after the
  topic warning of line 82 was already printed, since the topic is parsed
  first.
* Otherwise the two callsigns are injected, the header schema is
  established under the lock if not yet written (header row emitted to both
  sinks), the data row is built in header order and emitted to both sinks,
  and both streams are flushed. -/
def on_message (st : CSVState) (callsign : String) (topic : String)
    (loads : Except String Json) : CSVState :=
  match loads with
  | .error e =>
      { st with stderr := st.stderr ++ ["Failed to decode JSON: " ++ e] }
  | .ok j =>
      let tx_callsign := txOfTopic topic
      let warn := topicWarning topic
      match j with
      | .obj fs =>
          let data := injectCallsigns (dictOfList fs) tx_callsign callsign
          let rem := if st.headers_written then st.remaining_keys
                     else remainingOf data
          let headerOut : List (List Json) :=
            if st.headers_written then [] else [headerRow rem]
          let row := rowFor rem data
          { headers_written := true
            remaining_keys := rem
            console := ((headerOut ++ [row]).foldl SinkState.writeRow
              st.console).flush
            file := ((headerOut ++ [row]).foldl SinkState.writeRow
              st.file).flush
            stderr := st.stderr ++ warn }
      | _ =>
          { st with stderr := st.stderr ++ warn ++
              ["Error processing message: TypeError"] }

/-- A sequence of callback invocations applied in some serial order.  The
body of `on_message` that touches shared state runs under `self.lock`
(line 90), so any concurrent schedule of callbacks executes the critical
sections atomically in some order; the parse/inject prefix outside the lock
only touches thread-local data.  A run is therefore a fold of `on_message`
over the messages in that order. -/
def runMessages (callsign : String) (st : CSVState)
    (msgs : List (String × Except String Json)) : CSVState :=
  msgs.foldl (fun s m => on_message s callsign m.1 m.2) st

/-! ## CSV rendering (`csv.writer` defaults) and invariants -/

/-- `csv.writer`'s default `QUOTE_MINIMAL` test: a field is quoted iff it
contains the delimiter, the quote character, or a newline character. -/
def csvNeedsQuoting (s : String) : Bool :=
  s.toList.any (fun c => c = ',' ∨ c = '"' ∨ c = '\n' ∨ c = '\r')

/-- Quote a field: wrap in double quotes, doubling embedded quotes. -/
def csvQuote (s : String) : String :=
  "\"" ++ String.join (s.toList.map
    (fun c => if c = '"' then "\"\"" else String.singleton c)) ++ "\""

/-- One CSV field under conventional (minimal) quoting. -/
def csvField (s : String) : String :=
  if csvNeedsQuoting s then csvQuote s else s

/-- One CSV record: comma-joined quoted fields plus the default `\r\n`
line terminator of `csv.writer`. -/
def csvRecord (cells : List String) : String :=
  String.intercalate "," (cells.map csvField) ++ "\r\n"

/-- The text a sink's medium holds: its flushed records, each stringified
cell-wise by `render` (Python's `str`) and laid out as one CSV record. -/
def renderSink (render : Json → String) (records : List (List Json)) : String :=
  String.join (records.map (fun r => csvRecord (r.map render)))

/-- Both sinks hold the same record sequence and neither stream has
unflushed records pending: true after `__init__` and, the code being
correct, after every callback. -/
def SinksAligned (st : CSVState) : Prop :=
  st.console.written = st.file.written ∧
  st.console.flushed = st.console.written ∧
  st.file.flushed = st.file.written

/-- Header-discipline invariant: before the first successfully decoded
message nothing has been written; afterwards the very first record on the
console is the header row for the frozen schema. -/
def HeaderDiscipline (st : CSVState) : Prop :=
  (st.headers_written = false → st.console.written = []) ∧
  (st.headers_written = true →
    st.console.written.head? = some (headerRow st.remaining_keys))

/-- Row-width invariant: nothing written before the schema exists, and
every record written so far has exactly `3 + |remaining_keys|` cells. -/
def RowWidthInv (st : CSVState) : Prop :=
  (st.headers_written = false → st.console.written = []) ∧
  ∀ r ∈ st.console.written, r.length = 3 + st.remaining_keys.length

/-! ## Association-list lemmas for the Python dict model -/

theorem find?_map_set (d : List (String × Json)) (k : String) (v : Json) :
    (d.map (fun p => if p.1 = k then (k, v) else p)).find?
        (fun p => p.1 = k)
      = if d.any (fun p => p.1 = k) then some (k, v) else none := by
  induction d with
  | nil => rfl
  | cons p t ih =>
      by_cases hp : p.1 = k
      · simp [hp]
      · have h1 : (if p.1 = k then (k, v) else p) = p := if_neg hp
        rw [List.map_cons, h1, List.find?_cons_of_neg _ (by simp [hp]), ih,
            List.any_cons]
        have hd : decide (p.1 = k) = false := by
          simp [hp]
        rw [hd, Bool.false_or]

theorem find?_map_set_ne (d : List (String × Json)) (k k' : String)
    (v : Json) (h : k' ≠ k) :
    (d.map (fun p => if p.1 = k then (k, v) else p)).find?
        (fun p => p.1 = k')
      = d.find? (fun p => p.1 = k') := by
  induction d with
  | nil => rfl
  | cons p t ih =>
      by_cases hp : p.1 = k
      · have h1 : (if p.1 = k then (k, v) else p) = (k, v) := if_pos hp
        have hk : ¬ (k = k') := fun he => h he.symm
        rw [List.map_cons, h1, List.find?_cons_of_neg _ (by simp [hk]),
            List.find?_cons_of_neg _ (by simp [hp, hk]), ih]
      · have h1 : (if p.1 = k then (k, v) else p) = p := if_neg hp
        rw [List.map_cons, h1]
        by_cases hq : p.1 = k'
        · rw [List.find?_cons_of_pos _ (by simp [hq]),
              List.find?_cons_of_pos _ (by simp [hq])]
        · rw [List.find?_cons_of_neg _ (by simp [hq]),
              List.find?_cons_of_neg _ (by simp [hq]), ih]

theorem find?_dictSet_self (d : List (String × Json)) (k : String)
    (v : Json) :
    (dictSet d k v).find? (fun p => p.1 = k) = some (k, v) := by
  unfold dictSet
  by_cases h : d.any (fun p => p.1 = k) = true
  · rw [if_pos h, find?_map_set, if_pos h]
  · rw [if_neg h, List.find?_append]
    have hnone : d.find? (fun p => decide (p.1 = k)) = none := by
      rw [List.find?_eq_none]
      intro x hx hpx
      exact h (List.any_eq_true.mpr ⟨x, hx, hpx⟩)
    rw [hnone, List.find?_cons_of_pos _ (by simp)]
    rfl

theorem find?_dictSet_ne (d : List (String × Json)) (k k' : String)
    (v : Json) (hne : k' ≠ k) :
    (dictSet d k v).find? (fun p => p.1 = k')
      = d.find? (fun p => p.1 = k') := by
  unfold dictSet
  by_cases h : d.any (fun p => p.1 = k) = true
  · rw [if_pos h]
    exact find?_map_set_ne d k k' v hne
  · have hk : ¬ (k = k') := fun he => hne he.symm
    rw [if_neg h, List.find?_append, List.find?_cons_of_neg _ (by simp [hk])]
    simp

/-- `d[k] = v` followed by `d.get(k, dflt)` returns `v`. -/
theorem dictGet_dictSet_self (d : List (String × Json)) (k : String)
    (v dflt : Json) : dictGet (dictSet d k v) k dflt = v := by
  unfold dictGet
  rw [find?_dictSet_self]

/-- Assignment to one key leaves `get` at any other key unchanged. -/
theorem dictGet_dictSet_ne (d : List (String × Json)) (k k' : String)
    (v dflt : Json) (h : k' ≠ k) :
    dictGet (dictSet d k v) k' dflt = dictGet d k' dflt := by
  unfold dictGet
  rw [find?_dictSet_ne d k k' v h]

/-- The injected `tx_callsign` value always wins, whatever the payload. -/
theorem dictGet_inject_tx (data : List (String × Json)) (tx rx : String)
    (dflt : Json) :
    dictGet (injectCallsigns data tx rx) "tx_callsign" dflt = .str tx := by
  unfold injectCallsigns
  rw [dictGet_dictSet_ne _ _ _ _ _ (by decide)]
  exact dictGet_dictSet_self ..

/-- The injected `rx_callsign` value always wins, whatever the payload. -/
theorem dictGet_inject_rx (data : List (String × Json)) (tx rx : String)
    (dflt : Json) :
    dictGet (injectCallsigns data tx rx) "rx_callsign" dflt = .str rx := by
  unfold injectCallsigns
  exact dictGet_dictSet_self ..

/-- Injection does not touch the `timestamp` field. -/
theorem dictGet_inject_timestamp (data : List (String × Json))
    (tx rx : String) (dflt : Json) :
    dictGet (injectCallsigns data tx rx) "timestamp" dflt
      = dictGet data "timestamp" dflt := by
  unfold injectCallsigns
  rw [dictGet_dictSet_ne _ _ _ _ _ (by decide),
      dictGet_dictSet_ne _ _ _ _ _ (by decide)]

/-! ## Step equations for `on_message` -/

theorem written_foldl_writeRow (recs : List (List Json)) (s : SinkState) :
    (recs.foldl SinkState.writeRow s).written = s.written ++ recs := by
  induction recs generalizing s with
  | nil => simp
  | cons r t ih => simp [SinkState.writeRow, ih]

/-- A `json.JSONDecodeError` only prints one stderr line (line 123). -/
theorem on_message_error (st : CSVState) (cs topic e : String) :
    on_message st cs topic (.error e)
      = { st with stderr := st.stderr ++ ["Failed to decode JSON: " ++ e] } :=
  rfl

/-- First successfully decoded dict: the header is established and the
header row followed by the data row goes to both sinks, which are then
flushed (lines 91-121). -/
theorem on_message_obj_first (st : CSVState) (cs topic : String)
    (fs : List (String × Json)) (h : st.headers_written = false) :
    on_message st cs topic (.ok (.obj fs))
      = { headers_written := true
          remaining_keys :=
            remainingOf (injectCallsigns (dictOfList fs) (txOfTopic topic) cs)
          console :=
            { written := st.console.written ++
                [headerRow (remainingOf
                    (injectCallsigns (dictOfList fs) (txOfTopic topic) cs)),
                 rowFor (remainingOf
                    (injectCallsigns (dictOfList fs) (txOfTopic topic) cs))
                  (injectCallsigns (dictOfList fs) (txOfTopic topic) cs)]
              flushed := st.console.written ++
                [headerRow (remainingOf
                    (injectCallsigns (dictOfList fs) (txOfTopic topic) cs)),
                 rowFor (remainingOf
                    (injectCallsigns (dictOfList fs) (txOfTopic topic) cs))
                  (injectCallsigns (dictOfList fs) (txOfTopic topic) cs)] }
          file :=
            { written := st.file.written ++
                [headerRow (remainingOf
                    (injectCallsigns (dictOfList fs) (txOfTopic topic) cs)),
                 rowFor (remainingOf
                    (injectCallsigns (dictOfList fs) (txOfTopic topic) cs))
                  (injectCallsigns (dictOfList fs) (txOfTopic topic) cs)]
              flushed := st.file.written ++
                [headerRow (remainingOf
                    (injectCallsigns (dictOfList fs) (txOfTopic topic) cs)),
                 rowFor (remainingOf
                    (injectCallsigns (dictOfList fs) (txOfTopic topic) cs))
                  (injectCallsigns (dictOfList fs) (txOfTopic topic) cs)] }
          stderr := st.stderr ++ topicWarning topic } := by
  unfold on_message
  rw [h]
  simp [SinkState.flush, SinkState.writeRow, written_foldl_writeRow]

/-- Later successfully decoded dict: the frozen schema is reused and only
the data row goes to both sinks, which are then flushed. -/
theorem on_message_obj_later (st : CSVState) (cs topic : String)
    (fs : List (String × Json)) (h : st.headers_written = true) :
    on_message st cs topic (.ok (.obj fs))
      = { headers_written := true
          remaining_keys := st.remaining_keys
          console :=
            { written := st.console.written ++
                [rowFor st.remaining_keys
                  (injectCallsigns (dictOfList fs) (txOfTopic topic) cs)]
              flushed := st.console.written ++
                [rowFor st.remaining_keys
                  (injectCallsigns (dictOfList fs) (txOfTopic topic) cs)] }
          file :=
            { written := st.file.written ++
                [rowFor st.remaining_keys
                  (injectCallsigns (dictOfList fs) (txOfTopic topic) cs)]
              flushed := st.file.written ++
                [rowFor st.remaining_keys
                  (injectCallsigns (dictOfList fs) (txOfTopic topic) cs)] }
          stderr := st.stderr ++ topicWarning topic } := by
  unfold on_message
  rw [h]
  simp [SinkState.flush, SinkState.writeRow, written_foldl_writeRow]

/-- A decoded value that is not a dict: the item assignment of line 85
raises `TypeError`, caught on line 124; only stderr grows. -/
theorem on_message_nonobj (st : CSVState) (cs topic : String) (j : Json)
    (h : j.isObj = false) :
    on_message st cs topic (.ok j)
      = { st with stderr := st.stderr ++ topicWarning topic ++
            ["Error processing message: TypeError"] } := by
  cases j <;> first
    | rfl
    | simp [Json.isObj] at h

/-! ## Further helper lemmas -/

theorem find?_filter_of_pred (d : List (String × Json)) (P : String → Bool)
    (k : String) (hk : P k = true) :
    (d.filter (fun p => P p.1)).find? (fun p => p.1 = k)
      = d.find? (fun p => p.1 = k) := by
  induction d with
  | nil => rfl
  | cons p t ih =>
      by_cases hP : P p.1 = true
      · rw [List.filter_cons_of_pos (l := t) hP]
        by_cases hpk : p.1 = k
        · rw [List.find?_cons_of_pos _ (by simp [hpk]),
              List.find?_cons_of_pos _ (by simp [hpk])]
        · rw [List.find?_cons_of_neg _ (by simp [hpk]),
              List.find?_cons_of_neg _ (by simp [hpk]), ih]
      · have hpk : ¬ p.1 = k := fun he => hP (he ▸ hk)
        rw [List.filter_cons_of_neg (l := t) (by simp [hP]),
            List.find?_cons_of_neg _ (by simp [hpk]), ih]

theorem dictGet_filter_of_pred (d : List (String × Json)) (P : String → Bool)
    (k : String) (dflt : Json) (hk : P k = true) :
    dictGet (d.filter (fun p => P p.1)) k dflt = dictGet d k dflt := by
  unfold dictGet
  rw [find?_filter_of_pred d P k hk]

theorem length_headerRow (rem : List String) :
    (headerRow rem).length = 3 + rem.length := by
  simp [headerRow, fixedHeaders]
  omega

theorem length_rowFor (rem : List String) (d : List (String × Json)) :
    (rowFor rem d).length = 3 + rem.length := by
  simp [rowFor]
  omega

theorem txOfTopic_long (topic : String)
    (h : 4 ≤ (pySplitSlash topic).length) :
    txOfTopic topic = (pySplitSlash topic).getD 2 "" := by
  unfold txOfTopic
  rw [if_pos h]

theorem txOfTopic_short (topic : String)
    (h : (pySplitSlash topic).length < 4) :
    txOfTopic topic = "" := by
  unfold txOfTopic
  rw [if_neg (by omega)]

theorem topicWarning_long (topic : String)
    (h : 4 ≤ (pySplitSlash topic).length) : topicWarning topic = [] := by
  unfold topicWarning
  rw [if_pos h]

theorem topicWarning_short (topic : String)
    (h : (pySplitSlash topic).length < 4) :
    topicWarning topic = ["Unexpected topic format: " ++ topic] := by
  unfold topicWarning
  rw [if_neg (by omega)]

/-! ## Preservation lemmas for single steps and runs -/

theorem step_sinks_eq (st : CSVState) (cs t : String)
    (l : Except String Json)
    (h : st.console.written = st.file.written) :
    (on_message st cs t l).console.written
      = (on_message st cs t l).file.written := by
  cases l with
  | error e => simpa [on_message_error] using h
  | ok j =>
      cases j with
      | obj fs =>
          by_cases hw : st.headers_written = true
          · rw [on_message_obj_later st cs t fs hw]
            simp [h]
          · rw [on_message_obj_first st cs t fs (by simpa using hw)]
            simp [h]
      | null => simpa [on_message_nonobj st cs t .null rfl] using h
      | bool b => simpa [on_message_nonobj st cs t (.bool b) rfl] using h
      | num n => simpa [on_message_nonobj st cs t (.num n) rfl] using h
      | str s => simpa [on_message_nonobj st cs t (.str s) rfl] using h
      | arr es => simpa [on_message_nonobj st cs t (.arr es) rfl] using h

theorem step_sinksAligned (st : CSVState) (cs t : String)
    (l : Except String Json) (h : SinksAligned st) :
    SinksAligned (on_message st cs t l) := by
  obtain ⟨h1, h2, h3⟩ := h
  cases l with
  | error e =>
      rw [on_message_error]
      exact ⟨h1, h2, h3⟩
  | ok j =>
      cases j with
      | obj fs =>
          by_cases hw : st.headers_written = true
          · rw [on_message_obj_later st cs t fs hw]
            exact ⟨by simp [h1], rfl, rfl⟩
          · rw [on_message_obj_first st cs t fs (by simpa using hw)]
            exact ⟨by simp [h1], rfl, rfl⟩
      | null => rw [on_message_nonobj st cs t .null rfl]; exact ⟨h1, h2, h3⟩
      | bool b =>
          rw [on_message_nonobj st cs t (.bool b) rfl]
          exact ⟨h1, h2, h3⟩
      | num n =>
          rw [on_message_nonobj st cs t (.num n) rfl]
          exact ⟨h1, h2, h3⟩
      | str s =>
          rw [on_message_nonobj st cs t (.str s) rfl]
          exact ⟨h1, h2, h3⟩
      | arr es =>
          rw [on_message_nonobj st cs t (.arr es) rfl]
          exact ⟨h1, h2, h3⟩

theorem step_frozen (st : CSVState) (cs t : String)
    (l : Except String Json) (hw : st.headers_written = true) :
    (on_message st cs t l).headers_written = true ∧
    (on_message st cs t l).remaining_keys = st.remaining_keys := by
  cases l with
  | error e => rw [on_message_error]; exact ⟨hw, rfl⟩
  | ok j =>
      cases j with
      | obj fs => rw [on_message_obj_later st cs t fs hw]; exact ⟨rfl, rfl⟩
      | null => rw [on_message_nonobj st cs t .null rfl]; exact ⟨hw, rfl⟩
      | bool b =>
          rw [on_message_nonobj st cs t (.bool b) rfl]; exact ⟨hw, rfl⟩
      | num n => rw [on_message_nonobj st cs t (.num n) rfl]; exact ⟨hw, rfl⟩
      | str s => rw [on_message_nonobj st cs t (.str s) rfl]; exact ⟨hw, rfl⟩
      | arr es =>
          rw [on_message_nonobj st cs t (.arr es) rfl]; exact ⟨hw, rfl⟩

theorem step_headerDiscipline (st : CSVState) (cs t : String)
    (l : Except String Json) (h : HeaderDiscipline st) :
    HeaderDiscipline (on_message st cs t l) := by
  obtain ⟨h0, h1⟩ := h
  cases l with
  | error e => rw [on_message_error]; exact ⟨h0, h1⟩
  | ok j =>
      cases j with
      | obj fs =>
          by_cases hw : st.headers_written = true
          · rw [on_message_obj_later st cs t fs hw]
            refine ⟨fun hF => by simp at hF, fun _ => ?_⟩
            rw [List.head?_append, h1 hw]
            rfl
          · have hw' : st.headers_written = false := by simpa using hw
            rw [on_message_obj_first st cs t fs hw']
            refine ⟨fun hF => by simp at hF, fun _ => ?_⟩
            rw [h0 hw']
            rfl
      | null => rw [on_message_nonobj st cs t .null rfl]; exact ⟨h0, h1⟩
      | bool b =>
          rw [on_message_nonobj st cs t (.bool b) rfl]; exact ⟨h0, h1⟩
      | num n => rw [on_message_nonobj st cs t (.num n) rfl]; exact ⟨h0, h1⟩
      | str s => rw [on_message_nonobj st cs t (.str s) rfl]; exact ⟨h0, h1⟩
      | arr es =>
          rw [on_message_nonobj st cs t (.arr es) rfl]; exact ⟨h0, h1⟩

theorem step_rowWidthInv (st : CSVState) (cs t : String)
    (l : Except String Json) (h : RowWidthInv st) :
    RowWidthInv (on_message st cs t l) := by
  obtain ⟨h0, h1⟩ := h
  cases l with
  | error e => rw [on_message_error]; exact ⟨h0, h1⟩
  | ok j =>
      cases j with
      | obj fs =>
          by_cases hw : st.headers_written = true
          · rw [on_message_obj_later st cs t fs hw]
            refine ⟨fun hF => by simp at hF, fun r hr => ?_⟩
            rcases List.mem_append.mp hr with hr | hr
            · exact h1 r hr
            · rw [List.mem_singleton.mp hr]
              exact length_rowFor ..
          · have hw' : st.headers_written = false := by simpa using hw
            rw [on_message_obj_first st cs t fs hw']
            refine ⟨fun hF => by simp at hF, fun r hr => ?_⟩
            rw [h0 hw', List.nil_append] at hr
            rcases List.mem_cons.mp hr with hr | hr
            · rw [hr]
              exact length_headerRow ..
            · rw [List.mem_singleton.mp hr]
              exact length_rowFor ..
      | null => rw [on_message_nonobj st cs t .null rfl]; exact ⟨h0, h1⟩
      | bool b =>
          rw [on_message_nonobj st cs t (.bool b) rfl]; exact ⟨h0, h1⟩
      | num n => rw [on_message_nonobj st cs t (.num n) rfl]; exact ⟨h0, h1⟩
      | str s => rw [on_message_nonobj st cs t (.str s) rfl]; exact ⟨h0, h1⟩
      | arr es =>
          rw [on_message_nonobj st cs t (.arr es) rfl]; exact ⟨h0, h1⟩

theorem run_sinks_eq (cs : String)
    (msgs : List (String × Except String Json)) :
    ∀ st : CSVState, st.console.written = st.file.written →
      (runMessages cs st msgs).console.written
        = (runMessages cs st msgs).file.written := by
  induction msgs with
  | nil => exact fun st h => h
  | cons m ms ih =>
      exact fun st h => ih _ (step_sinks_eq st cs m.1 m.2 h)

theorem run_frozen (cs : String)
    (msgs : List (String × Except String Json)) :
    ∀ st : CSVState, st.headers_written = true →
      (runMessages cs st msgs).headers_written = true ∧
      (runMessages cs st msgs).remaining_keys = st.remaining_keys := by
  induction msgs with
  | nil => exact fun st h => ⟨h, rfl⟩
  | cons m ms ih =>
      intro st h
      obtain ⟨ha, hb⟩ := step_frozen st cs m.1 m.2 h
      obtain ⟨hc, hd⟩ := ih _ ha
      exact ⟨hc, hd.trans hb⟩

theorem run_headerDiscipline (cs : String)
    (msgs : List (String × Except String Json)) :
    ∀ st : CSVState, HeaderDiscipline st →
      HeaderDiscipline (runMessages cs st msgs) := by
  induction msgs with
  | nil => exact fun st h => h
  | cons m ms ih =>
      exact fun st h => ih _ (step_headerDiscipline st cs m.1 m.2 h)

theorem run_rowWidthInv (cs : String)
    (msgs : List (String × Except String Json)) :
    ∀ st : CSVState, RowWidthInv st →
      RowWidthInv (runMessages cs st msgs) := by
  induction msgs with
  | nil => exact fun st h => h
  | cons m ms ih =>
      exact fun st h => ih _ (step_rowWidthInv st cs m.1 m.2 h)

theorem getLast?_append_two {α : Type} (l : List α) (a b : α) :
    (l ++ [a, b]).getLast? = some b := by
  rw [show l ++ [a, b] = (l ++ [a]) ++ [b] from by simp,
      List.getLast?_concat]

/-! ## Claim theorems -/

/-- C1: on the first successfully parsed message the header schema is
computed as the fixed prefix `timestamp, rx_callsign, tx_callsign`
followed by all other keys of the decoded record (after injection of the
two callsigns) in that record's iteration order, excluding the three fixed
columns; it is frozen into `remaining_keys`, and the header row is emitted
to both sinks immediately before the first data row. -/
theorem header_established_on_first_message (st : CSVState)
    (cs topic : String) (fs : List (String × Json))
    (h : st.headers_written = false) :
    (on_message st cs topic (.ok (.obj fs))).headers_written = true ∧
    (on_message st cs topic (.ok (.obj fs))).remaining_keys
      = remainingOf (injectCallsigns (dictOfList fs) (txOfTopic topic) cs) ∧
    remainingOf (injectCallsigns (dictOfList fs) (txOfTopic topic) cs)
      = (dictKeys (injectCallsigns (dictOfList fs) (txOfTopic topic) cs)).filter
          (fun k => ¬ fixedHeaders.contains k) ∧
    headerRow (remainingOf (injectCallsigns (dictOfList fs) (txOfTopic topic) cs))
      = (fixedHeaders
          ++ remainingOf (injectCallsigns (dictOfList fs) (txOfTopic topic) cs)).map
          Json.str ∧
    (on_message st cs topic (.ok (.obj fs))).console.written
      = st.console.written ++
        [headerRow (remainingOf (injectCallsigns (dictOfList fs) (txOfTopic topic) cs)),
         rowFor (remainingOf (injectCallsigns (dictOfList fs) (txOfTopic topic) cs))
           (injectCallsigns (dictOfList fs) (txOfTopic topic) cs)] ∧
    (on_message st cs topic (.ok (.obj fs))).file.written
      = st.file.written ++
        [headerRow (remainingOf (injectCallsigns (dictOfList fs) (txOfTopic topic) cs)),
         rowFor (remainingOf (injectCallsigns (dictOfList fs) (txOfTopic topic) cs))
           (injectCallsigns (dictOfList fs) (txOfTopic topic) cs)] := by
  rw [on_message_obj_first st cs topic fs h]
  exact ⟨rfl, rfl, rfl, rfl, rfl, rfl⟩

/-- Witness for C1 at a concrete first message. -/
theorem header_established_on_first_message_witness :
    (on_message initState "RX1" "lora_aprs/RX1/TX1/json_message"
        (.ok (.obj [("timestamp", Json.str "T0"), ("lat", Json.num 1)]))).remaining_keys
      = ["lat"] ∧
    (on_message initState "RX1" "lora_aprs/RX1/TX1/json_message"
        (.ok (.obj [("timestamp", Json.str "T0"), ("lat", Json.num 1)]))).console.written
      = [headerRow ["lat"],
         rowFor ["lat"]
           (injectCallsigns (dictOfList [("timestamp", Json.str "T0"), ("lat", Json.num 1)])
             (txOfTopic "lora_aprs/RX1/TX1/json_message") "RX1")] := by
  have h := header_established_on_first_message initState "RX1"
    "lora_aprs/RX1/TX1/json_message"
    [("timestamp", Json.str "T0"), ("lat", Json.num 1)] rfl
  refine ⟨?_, ?_⟩
  · rw [h.2.1]
    rfl
  · rw [h.2.2.2.2.1]
    rfl

/-- C2: for a decoded dict on a topic with at least 4 segments, the data
row starts with the payload's `timestamp` value (empty string when
absent), then the configured rx callsign, then topic segment index 2; the
injected `tx_callsign`/`rx_callsign` overwrite any same-named payload
keys. -/
theorem transcode_fixed_columns (st : CSVState) (cs topic : String)
    (fs : List (String × Json))
    (h4 : 4 ≤ (pySplitSlash topic).length) :
    dictGet (injectCallsigns (dictOfList fs) (txOfTopic topic) cs)
        "tx_callsign" (.str "")
      = .str ((pySplitSlash topic).getD 2 "") ∧
    dictGet (injectCallsigns (dictOfList fs) (txOfTopic topic) cs)
        "rx_callsign" (.str "") = .str cs ∧
    (∀ rem : List String,
      rowFor rem (injectCallsigns (dictOfList fs) (txOfTopic topic) cs)
        = dictGet (dictOfList fs) "timestamp" (.str "")
            :: .str cs :: .str ((pySplitSlash topic).getD 2 "")
            :: rem.map (cellFor (injectCallsigns (dictOfList fs) (txOfTopic topic) cs))) ∧
    (on_message st cs topic (.ok (.obj fs))).console.written.getLast?
      = some (rowFor
          (if st.headers_written then st.remaining_keys
           else remainingOf (injectCallsigns (dictOfList fs) (txOfTopic topic) cs))
          (injectCallsigns (dictOfList fs) (txOfTopic topic) cs)) := by
  have htx : dictGet (injectCallsigns (dictOfList fs) (txOfTopic topic) cs)
      "tx_callsign" (.str "") = .str ((pySplitSlash topic).getD 2 "") := by
    rw [dictGet_inject_tx, txOfTopic_long topic h4]
  refine ⟨htx, dictGet_inject_rx .., fun rem => ?_, ?_⟩
  · show ([dictGet (injectCallsigns (dictOfList fs) (txOfTopic topic) cs)
        "timestamp" (.str ""),
      dictGet (injectCallsigns (dictOfList fs) (txOfTopic topic) cs)
        "rx_callsign" (.str ""),
      dictGet (injectCallsigns (dictOfList fs) (txOfTopic topic) cs)
        "tx_callsign" (.str "")]
      ++ rem.map (cellFor (injectCallsigns (dictOfList fs) (txOfTopic topic) cs))) = _
    rw [dictGet_inject_timestamp, dictGet_inject_rx, htx]
    rfl
  · by_cases hw : st.headers_written = true
    · rw [on_message_obj_later st cs topic fs hw, if_pos hw,
          List.getLast?_concat]
    · have hw' : st.headers_written = false := by simpa using hw
      rw [on_message_obj_first st cs topic fs hw', if_neg hw,
          getLast?_append_two]

/-- Witness for C2: the payload even carries a spoofed `tx_callsign`,
which the topic-derived value overwrites. -/
theorem transcode_fixed_columns_witness :
    dictGet (injectCallsigns (dictOfList [("tx_callsign", Json.str "SPOOF")])
        (txOfTopic "lora_aprs/RX1/TX1/json_message") "RX1")
        "tx_callsign" (.str "")
      = .str "TX1" ∧
    dictGet (injectCallsigns (dictOfList [("tx_callsign", Json.str "SPOOF")])
        (txOfTopic "lora_aprs/RX1/TX1/json_message") "RX1")
        "rx_callsign" (.str "") = .str "RX1" := by
  have h := transcode_fixed_columns initState "RX1"
    "lora_aprs/RX1/TX1/json_message" [("tx_callsign", Json.str "SPOOF")]
    (by decide)
  exact ⟨h.1, h.2.1⟩

/-- C5: a payload that is not valid JSON produces zero rows — neither sink
receives a record, the header state is untouched — and exactly one error
line is logged; `on_message` returns normally, so the process lives on. -/
theorem malformed_payload_dropped (st : CSVState) (cs topic e : String) :
    (on_message st cs topic (.error e)).console = st.console ∧
    (on_message st cs topic (.error e)).file = st.file ∧
    (on_message st cs topic (.error e)).headers_written
      = st.headers_written ∧
    (on_message st cs topic (.error e)).remaining_keys
      = st.remaining_keys ∧
    (on_message st cs topic (.error e)).stderr
      = st.stderr ++ ["Failed to decode JSON: " ++ e] := by
  rw [on_message_error]
  exact ⟨rfl, rfl, rfl, rfl, rfl⟩

/-- C9: a payload that decodes to a non-dict JSON value (array, string,
number, boolean or null) produces no row and leaves the header state
untouched; the `TypeError` raised by the item assignment is caught by the
generic handler, one error diagnostic is logged, and the callback returns
normally. -/
theorem nonobject_payload_dropped (st : CSVState) (cs topic : String)
    (j : Json) (h : j.isObj = false) :
    (on_message st cs topic (.ok j)).console = st.console ∧
    (on_message st cs topic (.ok j)).file = st.file ∧
    (on_message st cs topic (.ok j)).headers_written = st.headers_written ∧
    (on_message st cs topic (.ok j)).remaining_keys = st.remaining_keys ∧
    (on_message st cs topic (.ok j)).stderr
      = st.stderr ++ topicWarning topic
          ++ ["Error processing message: TypeError"] := by
  rw [on_message_nonobj st cs topic j h]
  exact ⟨rfl, rfl, rfl, rfl, rfl⟩

/-- Witness for C9 at a top-level JSON array. -/
theorem nonobject_payload_dropped_witness :
    (on_message initState "RX1" "lora_aprs/RX1/TX1/json_message"
        (.ok (.arr [Json.num 1]))).console = initState.console ∧
    (on_message initState "RX1" "lora_aprs/RX1/TX1/json_message"
        (.ok (.arr [Json.num 1]))).stderr
      = ["Error processing message: TypeError"] := by
  have h := nonobject_payload_dropped initState "RX1"
    "lora_aprs/RX1/TX1/json_message" (.arr [Json.num 1]) rfl
  refine ⟨h.1, ?_⟩
  rw [h.2.2.2.2]
  rfl

/-- C6: a topic with fewer than 4 slash-separated segments yields an empty
sender id and a logged warning, but the message is still transcoded into a
row; with at least 4 segments the sender id is segment index 2
(zero-based). -/
theorem short_topic_graceful (st : CSVState) (cs topic : String)
    (fs : List (String × Json)) :
    ((pySplitSlash topic).length < 4 →
       txOfTopic topic = "" ∧
       (on_message st cs topic (.ok (.obj fs))).stderr
         = st.stderr ++ ["Unexpected topic format: " ++ topic] ∧
       (on_message st cs topic (.ok (.obj fs))).console.written.getLast?
         = some (rowFor
             (if st.headers_written then st.remaining_keys
              else remainingOf (injectCallsigns (dictOfList fs) "" cs))
             (injectCallsigns (dictOfList fs) "" cs))) ∧
    (4 ≤ (pySplitSlash topic).length →
       txOfTopic topic = (pySplitSlash topic).getD 2 "" ∧
       (on_message st cs topic (.ok (.obj fs))).stderr = st.stderr) := by
  constructor
  · intro hlt
    have htx : txOfTopic topic = "" := txOfTopic_short topic hlt
    refine ⟨htx, ?_, ?_⟩
    · by_cases hw : st.headers_written = true
      · rw [on_message_obj_later st cs topic fs hw,
            topicWarning_short topic hlt]
      · rw [on_message_obj_first st cs topic fs (by simpa using hw),
            topicWarning_short topic hlt]
    · by_cases hw : st.headers_written = true
      · rw [on_message_obj_later st cs topic fs hw, if_pos hw, htx,
            List.getLast?_concat]
      · have hw' : st.headers_written = false := by simpa using hw
        rw [on_message_obj_first st cs topic fs hw', if_neg hw, htx,
            getLast?_append_two]
  · intro hge
    refine ⟨txOfTopic_long topic hge, ?_⟩
    by_cases hw : st.headers_written = true
    · rw [on_message_obj_later st cs topic fs hw,
          topicWarning_long topic hge]
      simp
    · rw [on_message_obj_first st cs topic fs (by simpa using hw),
          topicWarning_long topic hge]
      simp

/-- Witness for C6 at the two-segment topic `a/b`. -/
theorem short_topic_graceful_witness :
    txOfTopic "a/b" = "" ∧
    (on_message initState "RX1" "a/b"
        (.ok (.obj [("lat", Json.num 7)]))).stderr
      = ["Unexpected topic format: a/b"] ∧
    (on_message initState "RX1" "a/b"
        (.ok (.obj [("lat", Json.num 7)]))).console.written.getLast?
      = some (rowFor ["lat"]
          (injectCallsigns (dictOfList [("lat", Json.num 7)]) "" "RX1")) := by
  have h := (short_topic_graceful initState "RX1" "a/b"
    [("lat", Json.num 7)]).1 (by decide)
  exact ⟨h.1, h.2.1, h.2.2⟩

/-- C3: once the header schema is established it is never changed by any
later message: `headers_written` stays true and `remaining_keys` is frozen
for every kind of payload; a later dict is rendered against the frozen
schema only — a schema key missing from the record renders as the empty
string, and record entries whose key is outside the schema have no effect
on the row (they are silently dropped). -/
theorem schema_frozen_after_first (st : CSVState) (cs topic : String)
    (loads : Except String Json) (hw : st.headers_written = true) :
    (on_message st cs topic loads).headers_written = true ∧
    (on_message st cs topic loads).remaining_keys = st.remaining_keys ∧
    (∀ fs, loads = .ok (.obj fs) →
       (on_message st cs topic loads).console.written
         = st.console.written ++
           [rowFor st.remaining_keys
              (injectCallsigns (dictOfList fs) (txOfTopic topic) cs)]) ∧
    (∀ (d : List (String × Json)) (k : String),
       d.find? (fun p => p.1 = k) = none → cellFor d k = .str "") ∧
    (∀ d : List (String × Json),
       rowFor st.remaining_keys d
         = rowFor st.remaining_keys
             (d.filter (fun p =>
                fixedHeaders.contains p.1
                  || st.remaining_keys.contains p.1))) := by
  obtain ⟨h1, h2⟩ := step_frozen st cs topic loads hw
  refine ⟨h1, h2, ?_, ?_, ?_⟩
  · intro fs hfs
    subst hfs
    rw [on_message_obj_later st cs topic fs hw]
  · intro d k hnone
    unfold cellFor dictGet
    rw [hnone]
    rfl
  · intro d
    unfold rowFor
    have hget : ∀ k : String,
        (fixedHeaders.contains k || st.remaining_keys.contains k) = true →
        dictGet (d.filter (fun p =>
            fixedHeaders.contains p.1 || st.remaining_keys.contains p.1))
          k (.str "") = dictGet d k (.str "") :=
      fun k hk => dictGet_filter_of_pred d
        (fun x => fixedHeaders.contains x || st.remaining_keys.contains x)
        k (.str "") hk
    have hfix : ∀ k : String, fixedHeaders.contains k = true →
        (fixedHeaders.contains k || st.remaining_keys.contains k) = true :=
      fun k hk => by rw [hk, Bool.true_or]
    rw [hget "timestamp" (hfix _ (by decide)),
        hget "rx_callsign" (hfix _ (by decide)),
        hget "tx_callsign" (hfix _ (by decide))]
    have hcells : st.remaining_keys.map
        (cellFor (d.filter (fun p =>
           fixedHeaders.contains p.1 || st.remaining_keys.contains p.1)))
        = st.remaining_keys.map (cellFor d) := by
      refine List.map_congr_left (fun k hk => ?_)
      unfold cellFor
      rw [hget k (by
        have hc : st.remaining_keys.contains k = true := by
          rw [List.contains_eq_any_beq]
          exact List.any_eq_true.mpr ⟨k, hk, by simp⟩
        rw [hc, Bool.or_true])]
    rw [hcells]

/-- Witness for C3: a second message with a disjoint key set leaves the
schema frozen and renders the missing `lat` column as the empty string. -/
theorem schema_frozen_after_first_witness :
    (on_message
        (on_message initState "RX1" "lora_aprs/RX1/TX1/json_message"
          (.ok (.obj [("timestamp", Json.str "T0"), ("lat", Json.num 1)])))
        "RX1" "lora_aprs/RX1/TX2/json_message"
        (.ok (.obj [("odd", Json.num 9)]))).remaining_keys = ["lat"] ∧
    cellFor (dictOfList [("odd", Json.num 9)]) "lat" = .str "" := by
  have h := schema_frozen_after_first
    (on_message initState "RX1" "lora_aprs/RX1/TX1/json_message"
      (.ok (.obj [("timestamp", Json.str "T0"), ("lat", Json.num 1)])))
    "RX1" "lora_aprs/RX1/TX2/json_message"
    (.ok (.obj [("odd", Json.num 9)])) rfl
  refine ⟨?_, ?_⟩
  · rw [h.2.1]
    rfl
  · exact h.2.2.2.1 (dictOfList [("odd", Json.num 9)]) "lat" rfl

/-- Counterexample to C4: the list/dict re-serialization of lines 113-114
is applied only to the remaining-key cells, not to the three fixed columns
built on lines 105-107.  With payload `{"timestamp": [1, 2]}` the first
cell of the produced data row is the native array value, not the JSON text
of that array. -/
theorem array_timestamp_kept_native :
    ((on_message initState "RX1" "lora_aprs/RX1/TX1/json_message"
        (.ok (.obj [("timestamp",
          Json.arr [Json.num 1, Json.num 2])]))).console.written.getLast?.getD
        []).getD 0 .null
      ≠ Json.str (Json.dumps (Json.arr [Json.num 1, Json.num 2])) := by
  have hv : ((on_message initState "RX1" "lora_aprs/RX1/TX1/json_message"
      (.ok (.obj [("timestamp",
        Json.arr [Json.num 1, Json.num 2])]))).console.written.getLast?.getD
      []).getD 0 .null
      = Json.arr [Json.num 1, Json.num 2] := rfl
  rw [hv]
  intro hEq
  injection hEq

/-- C4 (amended): every remaining-key cell whose value is a JSON array or
object is rendered as that value's JSON text, and every other
remaining-key value passes through unchanged; the three fixed columns pass
their value through without re-serialization, so an array- or
object-valued `timestamp` stays in native form. -/
theorem remaining_key_values_reserialized (st : CSVState)
    (cs topic : String) (fs : List (String × Json)) :
    (on_message st cs topic (.ok (.obj fs))).console.written.getLast?
      = some
          (dictGet (injectCallsigns (dictOfList fs) (txOfTopic topic) cs)
              "timestamp" (.str "")
            :: dictGet (injectCallsigns (dictOfList fs) (txOfTopic topic) cs)
              "rx_callsign" (.str "")
            :: dictGet (injectCallsigns (dictOfList fs) (txOfTopic topic) cs)
              "tx_callsign" (.str "")
            :: (if st.headers_written then st.remaining_keys
                else remainingOf
                  (injectCallsigns (dictOfList fs) (txOfTopic topic) cs)).map
              (fun k =>
                if (dictGet (injectCallsigns (dictOfList fs) (txOfTopic topic) cs)
                      k (.str "")).isListOrDict
                then Json.str (Json.dumps
                  (dictGet (injectCallsigns (dictOfList fs) (txOfTopic topic) cs)
                    k (.str "")))
                else dictGet (injectCallsigns (dictOfList fs) (txOfTopic topic) cs)
                  k (.str ""))) := by
  by_cases hw : st.headers_written = true
  · rw [on_message_obj_later st cs topic fs hw, if_pos hw,
        List.getLast?_concat]
    rfl
  · have hw' : st.headers_written = false := by simpa using hw
    rw [on_message_obj_first st cs topic fs hw', if_neg hw,
        getLast?_append_two]
    rfl

/-- C7: both sinks always receive the identical ordered record sequence,
each record laid out as one conventionally quoted CSV record, and both
streams are flushed by the end of every callback, so after every emit the
file text equals the console text under any cell stringification. -/
theorem dual_sink_byte_identical (st : CSVState) (cs topic : String)
    (loads : Except String Json) (h : SinksAligned st) :
    SinksAligned (on_message st cs topic loads) ∧
    (∀ render : Json → String,
       renderSink render (on_message st cs topic loads).file.flushed
         = renderSink render (on_message st cs topic loads).console.flushed) := by
  have hA := step_sinksAligned st cs topic loads h
  refine ⟨hA, fun render => ?_⟩
  obtain ⟨h1, h2, h3⟩ := hA
  rw [h3, h2, h1]

/-- Witness for C7 starting from the freshly initialized state. -/
theorem dual_sink_byte_identical_witness :
    SinksAligned (on_message initState "RX1" "lora_aprs/RX1/TX1/json_message"
      (.ok (.obj [("path", Json.arr [Json.num 1, Json.num 2])]))) ∧
    renderSink Json.dumps
        (on_message initState "RX1" "lora_aprs/RX1/TX1/json_message"
          (.ok (.obj [("path", Json.arr [Json.num 1, Json.num 2])]))).file.flushed
      = renderSink Json.dumps
          (on_message initState "RX1" "lora_aprs/RX1/TX1/json_message"
            (.ok (.obj [("path", Json.arr [Json.num 1, Json.num 2])]))).console.flushed := by
  have h := dual_sink_byte_identical initState "RX1"
    "lora_aprs/RX1/TX1/json_message"
    (.ok (.obj [("path", Json.arr [Json.num 1, Json.num 2])]))
    ⟨rfl, rfl, rfl⟩
  exact ⟨h.1, h.2 Json.dumps⟩

/-- C8: the lock of line 90 makes each callback's critical section atomic,
so any concurrent schedule executes them in some serial order, i.e. as a
`runMessages` fold.  Along any such run the two sinks never diverge, and
once the header schema is established it stays established and unchanged;
starting from a fresh state the header row is inferred exactly once and is
the first record ever written. -/
theorem serialized_callbacks_invariants (cs : String) (st : CSVState)
    (msgs : List (String × Except String Json)) :
    (st.console.written = st.file.written →
       (runMessages cs st msgs).console.written
         = (runMessages cs st msgs).file.written) ∧
    (st.headers_written = true →
       (runMessages cs st msgs).headers_written = true ∧
       (runMessages cs st msgs).remaining_keys = st.remaining_keys) ∧
    (HeaderDiscipline st → HeaderDiscipline (runMessages cs st msgs)) :=
  ⟨run_sinks_eq cs msgs st, run_frozen cs msgs st,
   run_headerDiscipline cs msgs st⟩

/-- Witness for C8: a run with one good message and one malformed one. -/
theorem serialized_callbacks_invariants_witness :
    (runMessages "RX1" initState
        [("lora_aprs/RX1/TX1/json_message", .ok (.obj [("lat", Json.num 1)])),
         ("bad", .error "Expecting value")]).console.written
      = (runMessages "RX1" initState
          [("lora_aprs/RX1/TX1/json_message", .ok (.obj [("lat", Json.num 1)])),
           ("bad", .error "Expecting value")]).file.written ∧
    HeaderDiscipline (runMessages "RX1" initState
      [("lora_aprs/RX1/TX1/json_message", .ok (.obj [("lat", Json.num 1)])),
       ("bad", .error "Expecting value")]) := by
  have h := serialized_callbacks_invariants "RX1" initState
    [("lora_aprs/RX1/TX1/json_message", .ok (.obj [("lat", Json.num 1)])),
     ("bad", .error "Expecting value")]
  exact ⟨h.1 rfl, h.2.2 ⟨fun _ => rfl, fun hF => nomatch hF⟩⟩

/-- C10: along any run from the initial state, every record written to the
console sink — the header row and every data row — has exactly
`3 + |remaining_keys|` cells, the frozen width of the header. -/
theorem uniform_row_width (cs : String)
    (msgs : List (String × Except String Json)) :
    ∀ r ∈ (runMessages cs initState msgs).console.written,
      r.length = 3 + (runMessages cs initState msgs).remaining_keys.length := by
  have h := run_rowWidthInv cs msgs initState
    ⟨fun _ => rfl, fun r hr => nomatch hr⟩
  exact h.2

/-- Witness for C10: the header row of a one-message run has width 4. -/
theorem uniform_row_width_witness :
    (headerRow ["lat"]).length
      = 3 + (runMessages "RX1" initState
          [("lora_aprs/RX1/TX1/json_message",
            .ok (.obj [("timestamp", Json.str "T0"),
              ("lat", Json.num 1)]))]).remaining_keys.length := by
  exact uniform_row_width "RX1"
    [("lora_aprs/RX1/TX1/json_message",
      .ok (.obj [("timestamp", Json.str "T0"), ("lat", Json.num 1)]))]
    (headerRow ["lat"]) (List.mem_cons_self _ _)
